import Mathlib

/-!
Verification development for the `test-build-cache` repository.

The repository consists of
  * a small Express HTTP service (`src/routes.ts` — provided unnamed —,
    `src/index.ts`, and the `config` module reproduced in the README),
  * a bash measurement script (`docker-cache-test`, provided unnamed) that
    times a fixed sequence of `docker build` invocations, and
  * `scripts/build-scenarios.sh`, a case dispatcher over named build-scenario
    shell functions.

Everything below is a shallow embedding of that code: JavaScript handlers
become pure Lean functions from request data to the responses they send, and
each bash script becomes a function from its environment (build outcomes,
buildx availability) to the trace of external commands it issues, the final
file-system state, and what it prints.
-/

/-- A JSON value, as produced by the service's `res.json(...)` calls.
Numbers that the handlers compute are integers (millisecond differences);
request-time values merely embedded verbatim (uptime, memoryUsage) are
carried as opaque `JsonVal` parameters by the handlers. -/
inductive JsonVal where
  | str (s : String)
  | num (n : Int)
  | bool (b : Bool)
  | null
  | arr (elems : List JsonVal)
  | obj (fields : List (String × JsonVal))

/-- An HTTP response body: Express `res.json` sends a JSON body, other
Express APIs (`res.send` on a string, etc.) would send text.  The handlers
in this repository only ever use `res.json`. -/
inductive RespBody where
  | json (j : JsonVal)
  | text (s : String)

/-- Whether a response body is a JSON body. -/
def RespBody.isJson : RespBody → Bool
  | .json _ => true
  | .text _ => false

/-- One HTTP response as sent to the client: status code and body. -/
structure SentResponse where
  status : Nat
  body : RespBody

/-- `res.json(j)` with the default status 200. -/
def resJson (j : JsonVal) : SentResponse := ⟨200, .json j⟩

/-- `res.status(st).json(j)`. -/
def resStatusJson (st : Nat) (j : JsonVal) : SentResponse := ⟨st, .json j⟩

/-- Look a key up in the (object) body of a response. -/
def SentResponse.bodyField (r : SentResponse) (k : String) : Option JsonVal :=
  match r.body with
  | .json (.obj fields) => fields.lookup k
  | _ => none

/-! ## The config module

From the `config` source reproduced in `README.md` (the `src/config.ts`
module imported by `index.ts` and `routes.ts`).  Each `process.env.X` read
is a parameter of type `Option String` (`none` = unset). -/

/-- `config.buildInfo`: version literal, ISO timestamp taken once at module
load, and `GIT_COMMIT` defaulted to `"unknown"`. -/
structure BuildInfo where
  version : String
  buildTime : String
  gitCommit : String
deriving DecidableEq

/-- `config.features`: the three feature flags. -/
structure FeatureFlags where
  enableMetrics : Bool
  enableDebugMode : Bool
  enableCaching : Bool
deriving DecidableEq

/-- The `config` object.  `port` is `parseInt(process.env.PORT || '3000', 10)`;
a non-numeric string yields NaN in JS, modelled as `none`. -/
structure AppConfig where
  port : Option Nat
  environment : String
  buildInfo : BuildInfo
  features : FeatureFlags
deriving DecidableEq

/-- Evaluation of the `config` module at process load: `envPort` etc. are the
values of `PORT`, `NODE_ENV`, `GIT_COMMIT`, `ENABLE_METRICS`, `DEBUG`,
`ENABLE_CACHING`, and `nowIso` is `new Date().toISOString()` at load time. -/
def mkConfig (envPort envNodeEnv envGitCommit envMetrics envDebug envCaching : Option String)
    (nowIso : String) : AppConfig :=
  { port := (envPort.getD "3000").toNat?
  , environment := envNodeEnv.getD "development"
  , buildInfo :=
    { version := "1.0.0"
    , buildTime := nowIso
    , gitCommit := envGitCommit.getD "unknown" }
  , features :=
    { enableMetrics := envMetrics == some "true"
    , enableDebugMode := envDebug == some "true"
    , enableCaching := !(envCaching == some "false") } }

/-- JSON rendering of `config.buildInfo` as embedded by the handlers. -/
def buildInfoJson (b : BuildInfo) : JsonVal :=
  .obj [("version", .str b.version), ("buildTime", .str b.buildTime),
        ("gitCommit", .str b.gitCommit)]

/-- JSON rendering of `config.features` as embedded by the handlers. -/
def featureFlagsJson (f : FeatureFlags) : JsonVal :=
  .obj [("enableMetrics", .bool f.enableMetrics),
        ("enableDebugMode", .bool f.enableDebugMode),
        ("enableCaching", .bool f.enableCaching)]

/-! ## Route handlers

`routes.ts` handlers read the immutable `config`; they are modelled as
functions from the server state (the `config` value) and request-time data
to the response sent, paired with the server state after the request (the
handlers never assign to `config`, so the returned state is the input
state, which the embedding makes explicit). -/

/-- `GET /` — the home route of `createRoutes`. -/
def homeHandler (st : AppConfig) : SentResponse × AppConfig :=
  (resJson (.obj
    [ ("message", .str "🐳 Docker Build Cache Test Application")
    , ("buildInfo", buildInfoJson st.buildInfo)
    , ("features", featureFlagsJson st.features)
    , ("links", .obj [("health", .str "/health"), ("info", .str "/info"),
                      ("simulate", .str "/simulate")]) ]), st)

/-- `GET /info` — `nodeVersion`, `platform`, `arch` are strings from
`process`; `uptime` and `memoryUsage` are request-time values embedded
verbatim. -/
def infoHandler (st : AppConfig) (nodeVersion platform arch : String)
    (uptime memoryUsage : JsonVal) : SentResponse × AppConfig :=
  (resJson (.obj
    [ ("name", .str "test-build-cache")
    , ("description", .str "Application for testing Docker build caching strategies")
    , ("buildInfo", buildInfoJson st.buildInfo)
    , ("features", featureFlagsJson st.features)
    , ("system", .obj [("nodeVersion", .str nodeVersion), ("platform", .str platform),
                       ("arch", .str arch), ("uptime", uptime),
                       ("memoryUsage", memoryUsage)]) ]), st)

/-- `GET /health` — defined in `index.ts`; `timestampIso` is
`new Date().toISOString()`, `uptime` is `process.uptime()`, `envNodeEnv`
is `process.env.NODE_ENV`. -/
def healthHandler (timestampIso : String) (uptime : JsonVal)
    (envNodeEnv : Option String) : SentResponse :=
  resJson (.obj
    [ ("status", .str "healthy")
    , ("timestamp", .str timestampIso)
    , ("uptime", uptime)
    , ("environment", .str (envNodeEnv.getD "development")) ])

/-- `GET /simulate/:task`.  `startMs` is `Date.now()` at entry and `endMs`
is `Date.now()` at the moment the response is produced (for `io`, after the
100 ms `setTimeout`).  The JS `switch` tests `task` against `'cpu'`,
`'memory'`, `'io'` in order; `cpu` and `memory` `break` to the single
trailing `res.json`, `io` responds inside the timeout callback and returns,
and the `default` branch sends a 400 and returns.  The result is the list
of responses the handler sends for the request, in order. -/
def simulateResponses (task : String) (startMs endMs : Nat) : List SentResponse :=
  if task = "cpu" then
    [resJson (.obj [("task", .str task), ("duration", .num ((endMs : Int) - (startMs : Int))),
                    ("message", .str (task ++ " simulation completed"))])]
  else if task = "memory" then
    [resJson (.obj [("task", .str task), ("duration", .num ((endMs : Int) - (startMs : Int))),
                    ("message", .str (task ++ " simulation completed"))])]
  else if task = "io" then
    [resJson (.obj [("task", .str task), ("duration", .num ((endMs : Int) - (startMs : Int))),
                    ("message", .str "I/O simulation completed")])]
  else
    [resStatusJson 400 (.obj [("error", .str "Unknown task. Use: cpu, memory, or io")])]

/-! ## The measurement script

The unnamed bash script (`src/unnamed/part_000`) runs under `set -e`.  Its
`time_build` helper runs one `docker build`, computes
`duration=$((end_time - start_time))` from two `date +%s` timestamps, and
ends with `return $duration`; bash truncates a return status to 8 bits, and
under `set -e` a nonzero status of the plain `time_build` call terminates
the script before the following `var=$?` assignment runs.

The environment of a run fixes, for each of the at most five builds the
script can attempt (in order: clean `--no-cache`, cached, source-change,
deps-change, BuildKit), whether `docker build` succeeds and, if so, its
wall-clock duration `end_time - start_time` in seconds; plus whether
`docker buildx version` succeeds, and the `$(date)` string interpolated
into the comment appended to `src/routes.ts`. -/

/-- Environment of one run of the measurement script.
`buildOutcome i = none` means the `i`-th attempted `docker build` itself
fails (so `set -e` aborts inside `time_build`); `some d` means it succeeds
after `d` seconds of wall-clock time. -/
structure MeasureEnv where
  buildOutcome : Fin 5 → Option Nat
  buildxAvail : Bool
  dateStr : String

/-- The files the script mutates, each as a list of lines.
`packageJsonBackup = some c` models the presence of `package.json.backup`
with content `c`. -/
structure ScriptFS where
  routes : List String
  packageJson : List String
  packageJsonBackup : Option (List String)
deriving DecidableEq

/-- The comment line `echo`-appended to `src/routes.ts` in Test 3. -/
def routesComment (dateStr : String) : String :=
  "// Cache test modification at " ++ dateStr

/-- The line appended to `package.json` in Test 4. -/
def pkgComment : String := "  \"comment\": \"cache test modification\","

/-- Outcome of one `time_build` call followed by `var=$?` under `set -e`:
if `docker build` fails the script dies inside the function; otherwise the
function's exit status is `duration % 256`, and if that is nonzero `set -e`
kills the script at the call site, before `var=$?`; only a status of `0`
lets execution continue, with `var` capturing `duration % 256`. -/
def timeBuildStatus : Option Nat → Option Nat
  | none => none
  | some d => if d % 256 = 0 then some (d % 256) else none

/-- The five `docker build` invocations the script can issue, identified by
their test; `clean` carries `--no-cache`, `buildkit` carries
`--builder=buildx`, the others no extra arguments. -/
inductive BuildCmd where
  | clean
  | cached
  | sourceChange
  | depsChange
  | buildkit
deriving DecidableEq

/-- Externally visible events of a run, in order: `docker build`
invocations and the script's file mutations (`>> src/routes.ts`,
`cp`+`>>` on `package.json`, `mv` restoring it). -/
inductive ScriptEvent where
  | build (c : BuildCmd)
  | appendRoutes
  | modifyPkg
  | restorePkg
deriving DecidableEq

/-- The results summary of a completed run: the four captured `$?` values,
`buildkit_time` (0 when buildx is unavailable), and the cache-efficiency
value `(clean_time - cached_time) * 100 / clean_time` (bash arithmetic, C
truncated division) — `none` when the `[ $clean_time -gt 0 ]` guard fails
and the line is not printed. -/
structure MeasureSummary where
  cleanTime : Nat
  cachedTime : Nat
  sourceChangeTime : Nat
  depsChangeTime : Nat
  buildkitTime : Nat
  cacheEfficiency : Option Int
deriving DecidableEq

/-- Build the summary from the captured times, including the
`[ $clean_time -gt 0 ]` guard on the cache-efficiency computation. -/
def mkSummary (cleanT cachedT srcT depsT bkT : Nat) : MeasureSummary :=
  { cleanTime := cleanT, cachedTime := cachedT,
    sourceChangeTime := srcT, depsChangeTime := depsT, buildkitTime := bkT,
    cacheEfficiency :=
      if cleanT > 0
      then some (Int.tdiv (((cleanT : Int) - (cachedT : Int)) * 100) (cleanT : Int))
      else none }

/-- Result of a run: whether it reached the end (`completed = false` means
`set -e` terminated it early), the final file state, the ordered event
trace, and the printed summary (`some` exactly on completed runs). -/
structure RunResult where
  completed : Bool
  fs : ScriptFS
  events : List ScriptEvent
  summary : Option MeasureSummary
deriving DecidableEq

/-- One full run of the measurement script over environment `env` starting
from file state `fs0`, following the script line by line: Test 1 (clean,
`--no-cache`), Test 2 (cached), append to `src/routes.ts`, Test 3, back up
and append to `package.json`, Test 4, `mv` the backup back, then Test 5
only when `docker buildx version` succeeds, and finally the summary. -/
def runScript (env : MeasureEnv) (fs0 : ScriptFS) : RunResult :=
  match timeBuildStatus (env.buildOutcome 0) with
  | none => ⟨false, fs0, [.build .clean], none⟩
  | some cleanT =>
  match timeBuildStatus (env.buildOutcome 1) with
  | none => ⟨false, fs0, [.build .clean, .build .cached], none⟩
  | some cachedT =>
  let fs1 : ScriptFS := { fs0 with routes := fs0.routes ++ [routesComment env.dateStr] }
  match timeBuildStatus (env.buildOutcome 2) with
  | none => ⟨false, fs1, [.build .clean, .build .cached, .appendRoutes, .build .sourceChange], none⟩
  | some srcT =>
  let fs2 : ScriptFS := { fs1 with packageJsonBackup := some fs1.packageJson,
                                   packageJson := fs1.packageJson ++ [pkgComment] }
  match timeBuildStatus (env.buildOutcome 3) with
  | none => ⟨false, fs2, [.build .clean, .build .cached, .appendRoutes, .build .sourceChange,
                          .modifyPkg, .build .depsChange], none⟩
  | some depsT =>
  let fs3 : ScriptFS := { fs2 with packageJson := fs2.packageJsonBackup.getD fs2.packageJson,
                                   packageJsonBackup := none }
  if env.buildxAvail then
    match timeBuildStatus (env.buildOutcome 4) with
    | none => ⟨false, fs3, [.build .clean, .build .cached, .appendRoutes, .build .sourceChange,
                            .modifyPkg, .build .depsChange, .restorePkg, .build .buildkit], none⟩
    | some bkT =>
        ⟨true, fs3, [.build .clean, .build .cached, .appendRoutes, .build .sourceChange,
                     .modifyPkg, .build .depsChange, .restorePkg, .build .buildkit],
         some (mkSummary cleanT cachedT srcT depsT bkT)⟩
  else
    ⟨true, fs3, [.build .clean, .build .cached, .appendRoutes, .build .sourceChange,
                 .modifyPkg, .build .depsChange, .restorePkg],
     some (mkSummary cleanT cachedT srcT depsT 0)⟩

/-- The full event sequence of the script when nothing aborts it, given
buildx availability; every run's trace is a front segment of this. -/
def fullEventOrder (bx : Bool) : List ScriptEvent :=
  [.build .clean, .build .cached, .appendRoutes, .build .sourceChange,
   .modifyPkg, .build .depsChange, .restorePkg] ++
  (if bx then [.build .buildkit] else [])

/-! ## The build-scenarios script

`scripts/build-scenarios.sh` defines named shell functions, each issuing
docker commands, and dispatches on its first argument.  A function is
modelled as the list of external docker commands it issues; the only
environment dependency is whether `docker buildx version` succeeds. -/

/-- An external docker command issued by `build-scenarios.sh`.
`build bk args` is `docker build args` (with `DOCKER_BUILDKIT=1` in the
environment when `bk = true`); `buildxBuild args` is `docker buildx build
args`; the rest are the cleanup commands. -/
inductive DockerCmd where
  | build (buildkitEnv : Bool) (args : List String)
  | buildxBuild (args : List String)
  | rmi (image : String)
  | builderPrune
  | removeDir (path : String)
deriving DecidableEq

/-- `IMAGE_NAME` from the script. -/
def imageName : String := "test-build-cache"

/-- `basic_build`: `docker build -t $IMAGE_NAME .`. -/
def basic_build : List DockerCmd :=
  [.build false ["-t", imageName, "."]]

/-- `no_cache_build`: `docker build --no-cache -t $IMAGE_NAME .`. -/
def no_cache_build : List DockerCmd :=
  [.build false ["--no-cache", "-t", imageName, "."]]

/-- `target_build`: `docker build --target deps -t ${IMAGE_NAME}-deps .`. -/
def target_build : List DockerCmd :=
  [.build false ["--target", "deps", "-t", imageName ++ "-deps", "."]]

/-- `buildkit_build`: with buildx, `DOCKER_BUILDKIT=1 docker build`;
without, a standard `docker build`. -/
def buildkit_build (bx : Bool) : List DockerCmd :=
  if bx then [.build true ["-t", imageName, "."]]
  else [.build false ["-t", imageName, "."]]

/-- `multi_platform_build`: with buildx, one `docker buildx build
--platform linux/amd64,linux/arm64`; without, it only echoes that it is
skipping and issues no build at all. -/
def multi_platform_build (bx : Bool) : List DockerCmd :=
  if bx then
    [.buildxBuild ["--platform", "linux/amd64,linux/arm64", "-t", imageName, "."]]
  else []

/-- `inline_cache_build`: with buildx, `docker buildx build --cache-to
type=inline --cache-from $IMAGE_NAME -t $IMAGE_NAME --load .`; without,
a standard `docker build`. -/
def inline_cache_build (bx : Bool) : List DockerCmd :=
  if bx then
    [.buildxBuild ["--cache-to", "type=inline", "--cache-from", imageName,
                   "-t", imageName, "--load", "."]]
  else [.build false ["-t", imageName, "."]]

/-- `registry_cache_build`: with buildx, `docker buildx build` with local
cache import/export; without, a standard `docker build`. -/
def registry_cache_build (bx : Bool) : List DockerCmd :=
  if bx then
    [.buildxBuild ["--cache-to", "type=local,dest=/tmp/docker-cache",
                   "--cache-from", "type=local,src=/tmp/docker-cache",
                   "-t", imageName, "--load", "."]]
  else [.build false ["-t", imageName, "."]]

/-- `clean_up`: removes the two images, prunes the builder cache and
removes the temporary cache directory; it issues no build. -/
def clean_up : List DockerCmd :=
  [.rmi imageName, .rmi (imageName ++ "-deps"), .builderPrune,
   .removeDir "/tmp/docker-cache"]

/-- `run_all`: `clean_up` followed by every scenario in script order. -/
def run_all (bx : Bool) : List DockerCmd :=
  clean_up ++ basic_build ++ no_cache_build ++ target_build ++
  buildkit_build bx ++ multi_platform_build bx ++ inline_cache_build bx ++
  registry_cache_build bx

/-- The commands the script can dispatch to from its `case` statement. -/
inductive Cmd where
  | basic
  | noCache
  | target
  | buildkit
  | multiPlatform
  | inlineCache
  | registryCache
  | clean
  | allCmds
deriving DecidableEq

/-- Run the function the `case` arm for `c` calls, in an environment where
`docker buildx version` succeeds iff `bx`. -/
def runCmd : Cmd → Bool → List DockerCmd
  | .basic, _ => basic_build
  | .noCache, _ => no_cache_build
  | .target, _ => target_build
  | .buildkit, bx => buildkit_build bx
  | .multiPlatform, bx => multi_platform_build bx
  | .inlineCache, bx => inline_cache_build bx
  | .registryCache, bx => registry_cache_build bx
  | .clean, _ => clean_up
  | .allCmds, bx => run_all bx

/-- Whether a docker command is a container-build invocation
(`docker build` or `docker buildx build`). -/
def DockerCmd.isBuild : DockerCmd → Bool
  | .build _ _ => true
  | .buildxBuild _ => true
  | _ => false

/-- Number of container-build invocations in a command list. -/
def buildCount (cmds : List DockerCmd) : Nat :=
  (cmds.filter DockerCmd.isBuild).length

/-- The named build-scenario functions: the seven functions the glossary's
"build scenario" covers (`clean_up` and `run_all` wrap no single build). -/
def buildScenarios : List Cmd :=
  [.basic, .noCache, .target, .buildkit, .multiPlatform, .inlineCache, .registryCache]

/-- Result of the `case "${1:-}"` dispatch: either a command's function
runs, or the `*)` arm prints the usage text and exits with status 1. -/
inductive DispatchResult where
  | run (c : Cmd)
  | usageExit1
deriving DecidableEq

/-- The `case "${1:-}"` statement at the bottom of the script: the first
positional argument (empty when missing) is compared against the nine
patterns in order; anything else falls to `*) show_usage; exit 1`. -/
def dispatch (arg1 : Option String) : DispatchResult :=
  let a := arg1.getD ""
  if a = "basic" then .run .basic
  else if a = "no-cache" then .run .noCache
  else if a = "target" then .run .target
  else if a = "buildkit" then .run .buildkit
  else if a = "multi-platform" then .run .multiPlatform
  else if a = "inline-cache" then .run .inlineCache
  else if a = "registry-cache" then .run .registryCache
  else if a = "clean" then .run .clean
  else if a = "all" then .run .allCmds
  else .usageExit1

/-- The docker commands a dispatch outcome issues: the selected function's
commands, or none on the usage-and-exit path. -/
def dispatchCmds (r : DispatchResult) (bx : Bool) : List DockerCmd :=
  match r with
  | .run c => runCmd c bx
  | .usageExit1 => []

/-- The nine scenario names the `case` statement recognises. -/
def validArgs : List String :=
  ["basic", "no-cache", "target", "buildkit", "multi-platform",
   "inline-cache", "registry-cache", "clean", "all"]

/-! ## Theorems about the HTTP service -/

/-- C9: every request dispatched to the `/simulate/:task` handler causes
exactly one HTTP response to be sent — the `io` and unknown-task branches
return immediately after responding, and the `cpu`/`memory` branches fall
through to the single trailing `res.json` — so no request path responds
twice or not at all. -/
theorem simulate_single_response (task : String) (startMs endMs : Nat) :
    (simulateResponses task startMs endMs).length = 1 := by
  unfold simulateResponses
  split_ifs <;> rfl

/-- C6: every route the service defines (`GET /`, `GET /health`,
`GET /info`, `GET /simulate/:task`) responds with a JSON body; no handler
produces a non-JSON response body. -/
theorem routes_json_only (cfg : AppConfig) (nodeVersion platform arch : String)
    (uptime memoryUsage : JsonVal) (timestampIso : String) (envNodeEnv : Option String)
    (task : String) (startMs endMs : Nat) :
    (homeHandler cfg).1.body.isJson = true ∧
    (infoHandler cfg nodeVersion platform arch uptime memoryUsage).1.body.isJson = true ∧
    (healthHandler timestampIso uptime envNodeEnv).body.isJson = true ∧
    (simulateResponses task startMs endMs).all (fun r => r.body.isJson) = true := by
  refine ⟨rfl, rfl, rfl, ?_⟩
  unfold simulateResponses
  split_ifs <;> rfl

/-- C5: a `GET /simulate/:task` request with a task outside
`{cpu, memory, io}` gets status 400 with a JSON error body, while a task
in that set gets a JSON body carrying the task name, a non-negative
duration, and a completion message (assuming the clock does not run
backwards between the two `Date.now()` reads). -/
theorem simulate_task_validation (task : String) (startMs endMs : Nat)
    (hclock : startMs ≤ endMs) :
    (task ∉ (["cpu", "memory", "io"] : List String) →
      simulateResponses task startMs endMs =
        [⟨400, .json (.obj [("error", .str "Unknown task. Use: cpu, memory, or io")])⟩]) ∧
    (task ∈ (["cpu", "memory", "io"] : List String) →
      ∃ d msg,
        simulateResponses task startMs endMs =
          [⟨200, .json (.obj [("task", .str task), ("duration", .num d),
                              ("message", .str msg)])⟩] ∧
        0 ≤ d ∧
        (msg = task ++ " simulation completed" ∨ msg = "I/O simulation completed")) := by
  have hd : (0 : Int) ≤ (endMs : Int) - (startMs : Int) := by
    omega
  constructor
  · intro hn
    have h1 : ¬ task = "cpu" := fun h => hn (by simp [h])
    have h2 : ¬ task = "memory" := fun h => hn (by simp [h])
    have h3 : ¬ task = "io" := fun h => hn (by simp [h])
    unfold simulateResponses
    rw [if_neg h1, if_neg h2, if_neg h3]
    rfl
  · intro hm
    simp only [List.mem_cons, List.mem_singleton, List.not_mem_nil, or_false] at hm
    rcases hm with h | h | h
    · subst h
      exact ⟨_, _, by unfold simulateResponses; rw [if_pos rfl]; rfl, hd, Or.inl rfl⟩
    · subst h
      refine ⟨_, _, ?_, hd, Or.inl rfl⟩
      unfold simulateResponses
      rw [if_neg (by decide), if_pos rfl]
      rfl
    · subst h
      refine ⟨_, _, ?_, hd, Or.inr rfl⟩
      unfold simulateResponses
      rw [if_neg (by decide), if_neg (by decide), if_pos rfl]
      rfl

/-- Witness for `simulate_task_validation` at the concrete tasks
`"bogus"` and `"memory"` with timestamps 3 and 7. -/
theorem simulate_task_validation_witness :
    simulateResponses "bogus" 3 7 =
      [⟨400, .json (.obj [("error", .str "Unknown task. Use: cpu, memory, or io")])⟩] ∧
    (∃ d msg,
        simulateResponses "memory" 3 7 =
          [⟨200, .json (.obj [("task", .str "memory"), ("duration", .num d),
                              ("message", .str msg)])⟩] ∧
        0 ≤ d ∧
        (msg = "memory" ++ " simulation completed" ∨ msg = "I/O simulation completed")) :=
  ⟨(simulate_task_validation "bogus" 3 7 (by decide)).1 (by decide),
   (simulate_task_validation "memory" 3 7 (by decide)).2 (by decide)⟩

/-- C10: the `config` object is a pure function of the process-load inputs,
the handlers leave it unchanged, and the `GET /` and `GET /info` responses
of the same process embed the very same `buildInfo` and `features` values. -/
theorem config_load_once_consistent
    (envPort envNodeEnv envGitCommit envMetrics envDebug envCaching : Option String)
    (nowIso : String) (cfg : AppConfig)
    (_hcfg : cfg = mkConfig envPort envNodeEnv envGitCommit envMetrics envDebug envCaching nowIso)
    (nodeVersion platform arch : String) (uptime memoryUsage : JsonVal) :
    (homeHandler cfg).2 = cfg ∧
    (infoHandler cfg nodeVersion platform arch uptime memoryUsage).2 = cfg ∧
    (homeHandler cfg).1.bodyField "buildInfo"
      = (infoHandler cfg nodeVersion platform arch uptime memoryUsage).1.bodyField "buildInfo" ∧
    (homeHandler cfg).1.bodyField "features"
      = (infoHandler cfg nodeVersion platform arch uptime memoryUsage).1.bodyField "features" ∧
    (homeHandler cfg).1.bodyField "buildInfo" = some (buildInfoJson cfg.buildInfo) ∧
    (homeHandler cfg).1.bodyField "features" = some (featureFlagsJson cfg.features) := by
  exact ⟨rfl, rfl, rfl, rfl, rfl, rfl⟩

/-- Witness for `config_load_once_consistent`: a process loaded with an
empty environment at time `"t0"` serves identical `buildInfo` on `/` and
`/info`. -/
theorem config_load_once_consistent_witness :
    (homeHandler (mkConfig none none none none none none "t0")).1.bodyField "buildInfo"
      = (infoHandler (mkConfig none none none none none none "t0")
          "v20" "linux" "x64" .null .null).1.bodyField "buildInfo" :=
  (config_load_once_consistent none none none none none none "t0"
    (mkConfig none none none none none none "t0") rfl
    "v20" "linux" "x64" .null .null).2.2.1

/-! ## Theorems about the build-scenarios script -/

/-- C3 counterexample: it is not the case that every named build-scenario
function performs exactly one container-build invocation in every
environment — `multi_platform_build` performs none when buildx is
unavailable. -/
theorem scenario_single_build_refuted :
    ¬ ∀ s ∈ buildScenarios, ∀ bx : Bool, buildCount (runCmd s bx) = 1 := by
  decide

/-- C3 (amended): every named build-scenario function performs exactly one
container-build invocation in every environment, except
`multi_platform_build`, which performs none when buildx is unavailable. -/
theorem scenario_single_build_amended :
    ∀ s ∈ buildScenarios, ∀ bx : Bool,
      buildCount (runCmd s bx) =
        if s = Cmd.multiPlatform ∧ bx = false then 0 else 1 := by
  decide

/-- Witness for `scenario_single_build_amended` at `multi_platform_build`
without buildx. -/
theorem scenario_single_build_amended_witness :
    buildCount (runCmd Cmd.multiPlatform false) =
      if Cmd.multiPlatform = Cmd.multiPlatform ∧ false = false then 0 else 1 :=
  scenario_single_build_amended Cmd.multiPlatform (by decide) false

/-- C4: the scenario script's `case` statement sends each of the nine
recognised arguments to exactly its scenario function, and any other first
argument — including a missing one — reaches the `*)` arm, which prints the
usage text and exits with status 1 without issuing any docker command. -/
theorem dispatch_case_spec :
    dispatch (some "basic") = .run .basic ∧
    dispatch (some "no-cache") = .run .noCache ∧
    dispatch (some "target") = .run .target ∧
    dispatch (some "buildkit") = .run .buildkit ∧
    dispatch (some "multi-platform") = .run .multiPlatform ∧
    dispatch (some "inline-cache") = .run .inlineCache ∧
    dispatch (some "registry-cache") = .run .registryCache ∧
    dispatch (some "clean") = .run .clean ∧
    dispatch (some "all") = .run .allCmds ∧
    dispatch none = .usageExit1 ∧
    ∀ a : String, a ∉ validArgs →
      dispatch (some a) = .usageExit1 ∧
      ∀ bx : Bool, dispatchCmds (dispatch (some a)) bx = [] := by
  refine ⟨by decide, by decide, by decide, by decide, by decide, by decide, by decide,
         by decide, by decide, by decide, ?_⟩
  intro a ha
  have h1 : ¬ a = "basic" := fun h => ha (by simp [validArgs, h])
  have h2 : ¬ a = "no-cache" := fun h => ha (by simp [validArgs, h])
  have h3 : ¬ a = "target" := fun h => ha (by simp [validArgs, h])
  have h4 : ¬ a = "buildkit" := fun h => ha (by simp [validArgs, h])
  have h5 : ¬ a = "multi-platform" := fun h => ha (by simp [validArgs, h])
  have h6 : ¬ a = "inline-cache" := fun h => ha (by simp [validArgs, h])
  have h7 : ¬ a = "registry-cache" := fun h => ha (by simp [validArgs, h])
  have h8 : ¬ a = "clean" := fun h => ha (by simp [validArgs, h])
  have h9 : ¬ a = "all" := fun h => ha (by simp [validArgs, h])
  have key : dispatch (some a) = .usageExit1 := by
    simp only [dispatch, Option.getD_some]
    rw [if_neg h1, if_neg h2, if_neg h3, if_neg h4, if_neg h5,
        if_neg h6, if_neg h7, if_neg h8, if_neg h9]
  exact ⟨key, fun bx => by rw [key]; rfl⟩

/-- Witness for `dispatch_case_spec` at the unrecognised argument
`"bogus"`. -/
theorem dispatch_case_spec_witness :
    dispatch (some "bogus") = DispatchResult.usageExit1 ∧
    dispatchCmds (dispatch (some "bogus")) true = [] := by
  have h := dispatch_case_spec.2.2.2.2.2.2.2.2.2.2 "bogus" (by decide)
  exact ⟨h.1, h.2 true⟩

/-! ## Theorems about the measurement script -/

/-- A captured `$?` after a `time_build` call that execution survives is
always zero: the function's exit status is `duration % 256`, and under
`set -e` any nonzero status has already terminated the script. -/
theorem timeBuildStatus_zero {o : Option Nat} {t : Nat}
    (h : timeBuildStatus o = some t) : t = 0 := by
  match o with
  | none => simp [timeBuildStatus] at h
  | some d =>
    by_cases hd : d % 256 = 0
    · simp [timeBuildStatus, hd] at h
      omega
    · simp [timeBuildStatus, hd] at h

/-- Example environment: every build succeeds instantly, no buildx. -/
def envZeros : MeasureEnv :=
  { buildOutcome := fun _ => some 0, buildxAvail := false, dateStr := "D" }

/-- Example environment: every build succeeds after 256 s, no buildx. -/
def env256 : MeasureEnv :=
  { buildOutcome := fun _ => some 256, buildxAvail := false, dateStr := "D" }

/-- Example environment: every build succeeds after 5 s, no buildx. -/
def env5 : MeasureEnv :=
  { buildOutcome := fun _ => some 5, buildxAvail := false, dateStr := "D" }

/-- Example environment: the deps-change build (Test 4) fails, every other
build succeeds instantly, no buildx. -/
def envDepsFail : MeasureEnv :=
  { buildOutcome := fun i => if i = 3 then none else some 0
  , buildxAvail := false, dateStr := "D" }

/-- Example starting file state. -/
def fsDemo : ScriptFS :=
  { routes := ["r0"], packageJson := ["p0"], packageJsonBackup := none }

/-- C1: the cache-efficiency ratio is never printed by a run that completes
all its timed builds.  Reaching the summary requires every `time_build`
call's exit status — the duration truncated to 8 bits — to be zero, so
`clean_time` is 0 and the `[ $clean_time -gt 0 ]` guard suppresses the
`cache_efficiency` line. -/
theorem measure_ratio_never_printed (env : MeasureEnv) (fs0 : ScriptFS)
    (s : MeasureSummary) (h : (runScript env fs0).summary = some s) :
    s.cleanTime = 0 ∧ s.cacheEfficiency = none := by
  cases hbx : env.buildxAvail <;>
  cases h0 : timeBuildStatus (env.buildOutcome 0) <;>
  cases h1 : timeBuildStatus (env.buildOutcome 1) <;>
  cases h2 : timeBuildStatus (env.buildOutcome 2) <;>
  cases h3 : timeBuildStatus (env.buildOutcome 3) <;>
  cases h4 : timeBuildStatus (env.buildOutcome 4) <;>
  simp [runScript, hbx, h0, h1, h2, h3, h4] at h <;>
  (obtain rfl := timeBuildStatus_zero h0) <;>
  (obtain rfl := h.symm) <;>
  simp [mkSummary]

/-- Witness for `measure_ratio_never_printed` at a run where every build
finishes in 0 s. -/
theorem measure_ratio_never_printed_witness :
    (mkSummary 0 0 0 0 0).cleanTime = 0 ∧ (mkSummary 0 0 0 0 0).cacheEfficiency = none :=
  measure_ratio_never_printed envZeros fsDemo (mkSummary 0 0 0 0 0) (by decide)

/-- C2: the durations reported in the results summary are the captured
`$?` values, i.e. the durations truncated to 8 bits, not
`end_time - start_time` itself: a run whose builds each take 256 s
completes and reports every duration as 0 s, and a run whose builds take
5 s is terminated by `set -e` before any summary is printed. -/
theorem measure_summary_truncates :
    (runScript env256 fsDemo).completed = true ∧
    env256.buildOutcome 0 = some 256 ∧
    (runScript env256 fsDemo).summary =
      some { cleanTime := 0, cachedTime := 0, sourceChangeTime := 0,
             depsChangeTime := 0, buildkitTime := 0, cacheEfficiency := none } ∧
    (runScript env5 fsDemo).completed = false ∧
    (runScript env5 fsDemo).summary = none := by
  decide

/-- `front` is an initial segment of `whole` (element-for-element, in
order). -/
def isFrontSegment : List ScriptEvent → List ScriptEvent → Bool
  | [], _ => true
  | _ :: _, [] => false
  | a :: l, b :: m => if a = b then isFrontSegment l m else false

/-- C7: the measurement script attempts its builds strictly in the fixed
order clean `--no-cache`, fully cached, source-change (after the append to
`src/routes.ts`), deps-change (after the `package.json` modification), and
finally the BuildKit build exactly when `docker buildx version` succeeds;
the event trace of every run is an initial segment of that sequence (the
script is sequential, so no build starts before the previous one
completes), and a completed run performs exactly that sequence. -/
theorem measure_build_order (env : MeasureEnv) (fs0 : ScriptFS) :
    isFrontSegment (runScript env fs0).events (fullEventOrder env.buildxAvail) = true ∧
    ((runScript env fs0).completed = true →
      (runScript env fs0).events = fullEventOrder env.buildxAvail) := by
  cases hbx : env.buildxAvail <;>
  cases h0 : timeBuildStatus (env.buildOutcome 0) <;>
  cases h1 : timeBuildStatus (env.buildOutcome 1) <;>
  cases h2 : timeBuildStatus (env.buildOutcome 2) <;>
  cases h3 : timeBuildStatus (env.buildOutcome 3) <;>
  cases h4 : timeBuildStatus (env.buildOutcome 4) <;>
  simp [runScript, fullEventOrder, isFrontSegment, hbx, h0, h1, h2, h3, h4]

/-- Witness for `measure_build_order` at a completing run without buildx. -/
theorem measure_build_order_witness :
    isFrontSegment (runScript envZeros fsDemo).events (fullEventOrder envZeros.buildxAvail)
      = true ∧
    (runScript envZeros fsDemo).events = fullEventOrder envZeros.buildxAvail :=
  ⟨(measure_build_order envZeros fsDemo).1,
   (measure_build_order envZeros fsDemo).2 (by decide)⟩

/-- C8: a completed run of the measurement script leaves `package.json`
byte-identical to its pre-run content (backed up before and restored after
the deps-change build) with no backup file left behind, while
`src/routes.ts` ends as its pre-run content plus exactly one appended
comment line; and if the `docker build` inside the deps-change test fails,
`set -e` terminates the script before the restoring `mv`, leaving
`package.json` with the extra line appended. -/
theorem measure_file_effects (env : MeasureEnv) (fs0 : ScriptFS) :
    ((runScript env fs0).completed = true →
      (runScript env fs0).fs.packageJson = fs0.packageJson ∧
      (runScript env fs0).fs.packageJsonBackup = none ∧
      (runScript env fs0).fs.routes = fs0.routes ++ [routesComment env.dateStr]) ∧
    ((timeBuildStatus (env.buildOutcome 0)).isSome = true →
     (timeBuildStatus (env.buildOutcome 1)).isSome = true →
     (timeBuildStatus (env.buildOutcome 2)).isSome = true →
     env.buildOutcome 3 = none →
      (runScript env fs0).completed = false ∧
      (runScript env fs0).fs.packageJson = fs0.packageJson ++ [pkgComment] ∧
      (runScript env fs0).fs.packageJsonBackup
        = some (fs0.packageJson)) := by
  constructor
  · cases hbx : env.buildxAvail <;>
    cases h0 : timeBuildStatus (env.buildOutcome 0) <;>
    cases h1 : timeBuildStatus (env.buildOutcome 1) <;>
    cases h2 : timeBuildStatus (env.buildOutcome 2) <;>
    cases h3 : timeBuildStatus (env.buildOutcome 3) <;>
    cases h4 : timeBuildStatus (env.buildOutcome 4) <;>
    simp [runScript, hbx, h0, h1, h2, h3, h4]
  · intro hs0 hs1 hs2 hno
    obtain ⟨t0, h0⟩ := Option.isSome_iff_exists.mp hs0
    obtain ⟨t1, h1⟩ := Option.isSome_iff_exists.mp hs1
    obtain ⟨t2, h2⟩ := Option.isSome_iff_exists.mp hs2
    have h3 : timeBuildStatus (env.buildOutcome 3) = none := by
      simp [timeBuildStatus, hno]
    simp [runScript, h0, h1, h2, h3]

/-- Witness for `measure_file_effects`: the first part at a completing
run, the second at a run whose deps-change build fails. -/
theorem measure_file_effects_witness :
    ((runScript envZeros fsDemo).fs.packageJson = fsDemo.packageJson ∧
     (runScript envZeros fsDemo).fs.packageJsonBackup = none ∧
     (runScript envZeros fsDemo).fs.routes
       = fsDemo.routes ++ [routesComment envZeros.dateStr]) ∧
    ((runScript envDepsFail fsDemo).completed = false ∧
     (runScript envDepsFail fsDemo).fs.packageJson = fsDemo.packageJson ++ [pkgComment] ∧
     (runScript envDepsFail fsDemo).fs.packageJsonBackup = some (fsDemo.packageJson)) :=
  ⟨(measure_file_effects envZeros fsDemo).1 (by decide),
   (measure_file_effects envDepsFail fsDemo).2 (by decide) (by decide) (by decide) (by decide)⟩
